import Mathlib

/-!
Shallow embedding of the `mcpts` repository: an MCP client (`client.ts`)
driving an MCP server (`main.ts`).  The client side models the Sampling
Bridge (`handleServerMessagePrompt` and the `CreateMessageRequestSchema`
request handler), the Agent Loop's displayed-answer selection
(`handleQuery`), and the connect-time ordering of `main`.  The server side
models the tool handlers (`get-coordinates`, `create-user`,
`create-random-user`), the user store (`createUser`), and the two user
resources (`users://all` and `users://{id}/profile`).

External effects (operator confirmations, model generations, `fetch`,
`fs.writeFile`, the sampling round trip, `JSON.parse`) are passed in as
explicit oracle values, one per suspension point, so every definition is a
total executable function of the code's inputs and of those oracles.
-/

namespace Mcp

namespace Client

/-- Content of an MCP `PromptMessage` as the client inspects it:
`message.content.type === "text"` with its `text`, or any other content
type carrying its `type` tag. -/
inductive MessageContent
  | text (s : String)
  | other (ty : String)
deriving DecidableEq, Repr

/-- A role-tagged prompt message; only the content is inspected by
`handleServerMessagePrompt`, so only the content is modelled. -/
structure PromptMessage where
  content : MessageContent
deriving DecidableEq, Repr

/-- One `generateText` invocation as `handleServerMessagePrompt` issues it:
the prompt string and the `maxTokens` bound passed along. -/
structure GenCall where
  prompt : String
  maxTokens : Nat
deriving DecidableEq, Repr

/-- `handleServerMessagePrompt` from `client.ts`.

Oracles: `confirm` is the operator's answer to the confirm gate for this
message, `modelOut` the outcome of the `generateText` call for this message
(`Except.error` = the model call threw).  Returns the list of model calls
actually issued together with either the contributed string or the
propagated exception.  Mirrors the source exactly: a non-text content
contributes an "Unsupported content type" marker with no gate and no model
call; a denied text message contributes the fixed cancellation marker with
no model call; a confirmed text message issues one `generateText` call with
the message text as the prompt and the constant `1024` as `maxTokens`, and
contributes the returned text.  There is no try/catch around the model
call, so a model failure propagates as `Except.error`. -/
def handleServerMessagePrompt (confirm : Bool) (modelOut : Except String String)
    (message : PromptMessage) : List GenCall × Except String String :=
  match message.content with
  | .other ty => ([], .ok ("Unsupported content type: " ++ ty))
  | .text s =>
    if !confirm then
      ([], .ok "Prompt execution cancelled.")
    else
      ([⟨s, 1024⟩], modelOut)

/-- The message loop of the `CreateMessageRequestSchema` handler: iterate the
messages in order, call `handleServerMessagePrompt` on each, and push the
returned text onto `texts` only when it is truthy (non-empty).  The oracles
are indexed by message position: `confirmAt k` is the operator's answer for
message `k`, `modelAt k` the model outcome for message `k`.  An exception
from a message aborts the whole loop (no catch in the source). -/
def runMessages (confirmAt : Nat → Bool) (modelAt : Nat → Except String String) :
    Nat → List PromptMessage → List GenCall × Except String (List String)
  | _, [] => ([], .ok [])
  | k, m :: rest =>
    match handleServerMessagePrompt (confirmAt k) (modelAt k) m with
    | (calls, .error e) => (calls, .error e)
    | (calls, .ok t) =>
      match runMessages confirmAt modelAt (k + 1) rest with
      | (calls2, .error e) => (calls ++ calls2, .error e)
      | (calls2, .ok ts) => (calls ++ calls2, .ok (if t ≠ "" then t :: ts else ts))

/-- The per-message contributions of a request's messages before the
truthiness filter, one entry per processed message: what each
`handleServerMessagePrompt` call returns, with an exception cutting the
sequence off exactly as in `runMessages`.  Used to state that the loop
keeps exactly the non-empty contributions. -/
def contribs (confirmAt : Nat → Bool) (modelAt : Nat → Except String String) :
    Nat → List PromptMessage → Except String (List String)
  | _, [] => .ok []
  | k, m :: rest =>
    match (handleServerMessagePrompt (confirmAt k) (modelAt k) m).2 with
    | .error e => .error e
    | .ok t => (contribs confirmAt modelAt (k + 1) rest).map (fun ts => t :: ts)

/-- A sampling request (`request.params`): ordered messages plus the
`maxTokens` bound it carries. -/
structure SamplingRequest where
  messages : List PromptMessage
  maxTokens : Nat
deriving DecidableEq, Repr

/-- The sampling result returned by the handler. -/
structure SamplingResult where
  role : String
  model : String
  stopReason : String
  contentText : String
deriving DecidableEq, Repr

/-- JavaScript `texts.join("\n")`: elements separated by single newlines,
empty string for the empty array. -/
def joinNewline : List String → String
  | [] => ""
  | [t] => t
  | t :: rest => t ++ "\n" ++ joinNewline rest

/-- The client's `CreateMessageRequestSchema` handler: run the message loop,
then join the collected texts with a single newline into one role-tagged
text response with fixed role, model tag, and stop reason.  Returns the
model calls issued alongside the outcome; an uncaught per-message exception
makes the whole handler fail.  Note the handler reads only
`request.params.messages`: the request's own `maxTokens` is never used. -/
def samplingHandler (confirmAt : Nat → Bool) (modelAt : Nat → Except String String)
    (req : SamplingRequest) : List GenCall × Except String SamplingResult :=
  match runMessages confirmAt modelAt 0 req.messages with
  | (calls, .error e) => (calls, .error e)
  | (calls, .ok texts) =>
    (calls, .ok ⟨"user", "google/gemini-2.0-flash", "endTurn", joinNewline texts⟩)

/-- One content part of a tool result as the Agent Loop's display logic
reaches it: `content[0]?.text` may be absent, hence `Option`. -/
structure ToolContentPart where
  text : Option String
deriving DecidableEq, Repr

/-- The `result` field of one entry of `toolResults`: the raw `callTool`
result forwarded untouched by the executor. -/
structure ToolCallResult where
  content : List ToolContentPart
deriving DecidableEq, Repr

/-- One entry of `generateText`'s `toolResults`. -/
structure AgentToolResult where
  result : ToolCallResult
deriving DecidableEq, Repr

/-- The outcome of the Agent Loop's single `generateText` call: the final
text and the tool results gathered along the way. -/
structure GenerateResult where
  text : String
  toolResults : List AgentToolResult
deriving DecidableEq, Repr

/-- JavaScript truthiness on a possibly-undefined string: `undefined` and
`""` are falsy. -/
def jsTruthy (a : Option String) : Bool :=
  a.getD "" ≠ ""

/-- JavaScript `a || b` on possibly-undefined strings. -/
def jsOr (a b : Option String) : Option String :=
  if jsTruthy a then a else b

/-- `toolResults[0]?.result?.content[0]?.text` with optional chaining:
`none` when there is no tool result, no content part, or no text field. -/
def firstToolText (trs : List AgentToolResult) : Option String :=
  (trs.head?.map (fun r => r.result)).bind
    (fun r => r.content.head?.bind (fun p => p.text))

/-- The displayed answer of `handleQuery` (`client.ts` line 251):
`text || toolResults[0]?.result?.content[0]?.text || "No response generated."`,
left-associated as in JavaScript.  The final operand is a non-empty string
literal, so the chain never yields `undefined`; `getD ""` is unreachable. -/
def handleQueryDisplay (res : GenerateResult) : String :=
  (jsOr (jsOr (some res.text) (firstToolText res.toolResults))
    (some "No response generated.")).getD ""

/-- The observable events of `main` in `client.ts`, at the granularity of
its suspension points: connecting, issuing one discovery call, a discovery
call completing at the `Promise.all` join, registering the sampling
request handler, and running one interactive menu action. -/
inductive Event
  | connect
  | issueDiscovery (kind : String)
  | joinDiscovery (kind : String)
  | registerSampling
  | interact (action : String)
deriving DecidableEq, Repr

/-- The four capability kinds, in the order `main` lists them inside
`Promise.all`. -/
def discoveryKinds : List String :=
  ["tools", "resources", "resourceTemplates", "prompts"]

/-- The event trace of `main`, as the source's `await` structure orders it:
`connect` is awaited; then `Promise.all` evaluates its argument array,
issuing all four discovery calls before awaiting any of them, and its
`await` completes only when all four have completed; then
`setRequestHandler` registers the sampling handler; only then does the
interactive `while` loop run, producing one `interact` event per chosen
menu action. -/
def mainTrace (actions : List String) : List Event :=
  [Event.connect]
    ++ discoveryKinds.map Event.issueDiscovery
    ++ discoveryKinds.map Event.joinDiscovery
    ++ [Event.registerSampling]
    ++ actions.map Event.interact

end Client

namespace Server

/-- A record of the user store (`data/users.json`): `createUser` appends
`{ id, name, email }` objects. -/
structure User where
  id : Int
  name : String
  email : String
deriving DecidableEq, Repr

/-- The fragment of JSON values the server produces. -/
inductive Json
  | str (s : String)
  | num (n : Int)
  | obj (fields : List (String × Json))
  | arr (elems : List Json)

/-- `JSON.stringify` string escaping for the characters that can occur
here: backslash, double quote, newline. -/
def jsonEscape (s : String) : String :=
  String.join (s.toList.map fun c =>
    if c = '\\' then "\\\\"
    else if c = '\"' then "\\\""
    else if c = '\n' then "\\n"
    else String.singleton c)

/-- Two-space-per-level indent padding used by `JSON.stringify(x, null, 2)`. -/
def jsonPad (n : Nat) : String :=
  String.join (List.replicate n " ")

mutual

/-- `JSON.stringify(v, null, 2)` restricted to the fragment above, at a
given current indent depth. -/
def stringify : Json → Nat → String
  | .str s, _ => "\"" ++ jsonEscape s ++ "\""
  | .num n, _ => toString n
  | .obj [], _ => "\x7b\x7d"
  | .obj fs, d =>
    "\x7b\n" ++ String.intercalate ",\n" (stringifyFields fs (d + 1)) ++
      "\n" ++ jsonPad (2 * d) ++ "\x7d"
  | .arr [], _ => "[]"
  | .arr es, d =>
    "[\n" ++ String.intercalate ",\n" (stringifyElems es (d + 1)) ++
      "\n" ++ jsonPad (2 * d) ++ "]"

/-- Object fields rendered one per line at depth `d`. -/
def stringifyFields : List (String × Json) → Nat → List String
  | [], _ => []
  | (k, v) :: rest, d =>
    (jsonPad (2 * d) ++ "\"" ++ jsonEscape k ++ "\": " ++ stringify v d) ::
      stringifyFields rest d

/-- Array elements rendered one per line at depth `d`. -/
def stringifyElems : List Json → Nat → List String
  | [], _ => []
  | v :: rest, d => (jsonPad (2 * d) ++ stringify v d) :: stringifyElems rest d

end

/-- JavaScript `parseInt(s)` (radix 10, hex prefixes not modelled): skip
leading spaces, read an optional sign and a leading digit run; `none`
models `NaN` when no digit is read. -/
def jsParseInt (s : String) : Option Int :=
  let cs := s.toList.dropWhile (fun c => c = ' ')
  let signNeg := cs.head? = some '-'
  let cs2 := if cs.head? = some '-' ∨ cs.head? = some '+' then cs.drop 1 else cs
  let digits := cs2.takeWhile Char.isDigit
  if digits.isEmpty then none
  else
    let v : Int := digits.foldl (fun a c => a * 10 + (c.toNat - 48 : Int)) 0
    some (if signNeg then -v else v)

/-- One content entry of a resource read result. -/
structure ResourceContents where
  uri : String
  text : String
  mimeType : String
deriving DecidableEq, Repr

/-- A resource read result: the `contents` array. -/
structure ReadResult where
  contents : List ResourceContents
deriving DecidableEq, Repr

/-- The JSON object a stored user serializes to. -/
def encodeUser (u : User) : Json :=
  .obj [("id", .num u.id), ("name", .str u.name), ("email", .str u.email)]

/-- The JSON array served by the `users://all` resource: the whole store. -/
def usersAllJson (users : List User) : Json :=
  .arr (users.map encodeUser)

/-- The `users` resource handler (`users://all`): serialize the whole store
with `JSON.stringify(users, null, 2)` as a single `application/json`
content entry. -/
def usersAll (users : List User) : ReadResult :=
  ⟨[⟨"users://all", stringify (usersAllJson users) 0, "application/json"⟩]⟩

/-- The `user-details` resource-template handler (`users://{id}/profile`)
with the extracted `{id}` placeholder value: `parseInt` the id, `find` the
user by strict equality (a `NaN` id matches nothing), and serve either the
user or the `{ "error": "User not found" }` object — in both cases a normal
successful content payload. -/
def userDetails (users : List User) (idStr : String) : ReadResult :=
  let pid := jsParseInt idStr
  let uriHref := "users://" ++ idStr ++ "/profile"
  match users.find? (fun u => pid = some u.id) with
  | none =>
    ⟨[⟨uriHref, stringify (.obj [("error", .str "User not found")]) 0, "application/json"⟩]⟩
  | some u =>
    ⟨[⟨uriHref, stringify (encodeUser u) 0, "application/json"⟩]⟩

/-- `createUser` from `main.ts`, with the store as an explicit value and
the `fs.writeFile` outcome as an oracle: read the store, assign
`id = users.length + 1`, append `{ id, name, email }`, write the store
back, and return the id.  A write failure throws out of `createUser`
(modelled as `Except.error`; the new store is then not persisted).
Note: for the `create-user` tool the argument object holds exactly
`name` and `email` (the zod schema strips unknown keys), so the `id`
computed here is never overridden by the `...user` spread. -/
def createUser (users : List User) (name email : String)
    (writeOut : Except String Unit) : Except String (List User × Int) :=
  let id : Int := (users.length : Int) + 1
  let newUsers := users ++ [⟨id, name, email⟩]
  match writeOut with
  | .error e => .error e
  | .ok _ => .ok (newUsers, id)

/-- One content part of a tool result. -/
structure ToolContent where
  type : String
  text : String
deriving DecidableEq, Repr

/-- A tool result: the `content` array. -/
structure ToolResult where
  content : List ToolContent
deriving DecidableEq, Repr

/-- One entry of the geocoding API's `results` array; `latitude` /
`longitude` may be absent, and `0` is falsy under `|| "unknown"`. -/
structure GeoResult where
  latitude : Option Int
  longitude : Option Int
deriving DecidableEq, Repr

/-- The parsed geocoding response body; `results` may be absent, in which
case `data.results.length` throws a `TypeError` inside the handler's
`try` block. -/
structure GeoResponse where
  results : Option (List GeoResult)
deriving DecidableEq, Repr

/-- `${latitude || "unknown"}`: an absent or zero coordinate prints as
`unknown`. -/
def coordText (c : Option Int) : String :=
  match c with
  | none => "unknown"
  | some n => if n = 0 then "unknown" else toString n

/-- The `get-coordinates` tool handler, with the `fetch`/`json()` outcome
as an oracle.  The whole body sits in a `try`/`catch` that converts any
failure into a text content part, so every branch returns a single text
part. -/
def getCoordinates (city : String) (fetchOut : Except String GeoResponse) : ToolResult :=
  match fetchOut with
  | .error e =>
    ⟨[⟨"text", "Error fetching coordinates data for " ++ city ++ ": " ++ e⟩]⟩
  | .ok data =>
    match data.results with
    | none =>
      ⟨[⟨"text", "Error fetching coordinates data for " ++ city ++ ": " ++
        "Cannot read properties of undefined (reading 'length')"⟩]⟩
    | some [] => ⟨[⟨"text", "No data found for " ++ city ++ "."⟩]⟩
    | some (r :: _) =>
      ⟨[⟨"text", "Data for " ++ city ++ " is " ++ coordText r.latitude ++
        " and " ++ coordText r.longitude ++ "!"⟩]⟩

/-- The `create-user` tool handler: call `createUser` inside a
`try`/`catch`; a store failure is converted to an error text part. -/
def createUserTool (users : List User) (name email : String)
    (writeOut : Except String Unit) : ToolResult :=
  match createUser users name email writeOut with
  | .ok (_, id) =>
    ⟨[⟨"text", "User " ++ toString id ++ " created successfully: " ++
      name ++ " (" ++ email ++ ")"⟩]⟩
  | .error e => ⟨[⟨"text", "Error creating user: " ++ e⟩]⟩

/-- The content of a sampling round-trip result as `create-random-user`
inspects it. -/
structure SamplingContent where
  type : String
  text : String
deriving DecidableEq, Repr

/-- The `create-random-user` tool handler.  Oracles: the sampling
round trip to the client (`server.server.request`), the
`JSON.parse` of the returned text (both may fail), and the store write.
The sampling call sits OUTSIDE the `try` block, so its failure escapes the
handler as an exception; the parse and the store write are inside the
`try` and are converted to error text parts. -/
def createRandomUser (users : List User)
    (samplingOut : Except String SamplingContent)
    (parsedOut : Except String (String × String))
    (writeOut : Except String Unit) : Except String ToolResult :=
  match samplingOut with
  | .error e => .error e
  | .ok c =>
    if c.type ≠ "text" then
      .ok ⟨[⟨"text", "Error: Failed to generate fake user data."⟩]⟩
    else
      match parsedOut with
      | .error e => .ok ⟨[⟨"text", "Error: " ++ e⟩]⟩
      | .ok (n, em) =>
        match createUser users n em writeOut with
        | .ok (_, id) =>
          .ok ⟨[⟨"text", "Fake user created successfully: " ++ toString id⟩]⟩
        | .error e => .ok ⟨[⟨"text", "Error: " ++ e⟩]⟩

/-- Modelled from the spec: the Capability Registry boundary around tool
handlers, whose implementation lives in the MCP SDK and is not under
`src/`.  Per §4.2, "a handler that raises an internal failure must be
caught at the registry boundary and converted to a text content part
describing the failure; tool failures are payloads, never protocol
errors". -/
def registryBoundary (r : Except String ToolResult) : ToolResult :=
  match r with
  | .ok t => t
  | .error e => ⟨[⟨"text", e⟩]⟩

/-- A valid tool invocation: one of the three registered tool names with
its (schema-valid) argument map. -/
inductive ToolCall
  | getCoordinates (city : String)
  | createUser (name email : String)
  | createRandomUser
deriving DecidableEq, Repr

/-- The external outcomes a tool invocation can observe. -/
structure ServerEnv where
  store : List User
  fetchOut : Except String GeoResponse
  writeOut : Except String Unit
  samplingOut : Except String SamplingContent
  parsedOut : Except String (String × String)

/-- `callTool` over the registered tools: dispatch to the handler and pass
any escaped exception through the registry boundary. -/
def callTool (env : ServerEnv) : ToolCall → ToolResult
  | .getCoordinates city => getCoordinates city env.fetchOut
  | .createUser n e => createUserTool env.store n e env.writeOut
  | .createRandomUser =>
    registryBoundary (createRandomUser env.store env.samplingOut env.parsedOut env.writeOut)

end Server

/-! ## Helper definitions and lemmas -/

/-- Split a character list at newlines (accumulator holds the current part
reversed): the newline-separated parts of a string, used only to state
claims about how many parts a joined response has. -/
def splitNLAux : List Char → List Char → List String
  | [], acc => [String.mk acc.reverse]
  | c :: cs, acc =>
    if c = '\n' then String.mk acc.reverse :: splitNLAux cs []
    else splitNLAux cs (c :: acc)

/-- The newline-separated parts of a string. -/
def newlineParts (s : String) : List String :=
  splitNLAux s.data []

/-- Every model call `handleServerMessagePrompt` issues carries the
constant bound `1024`, has the message's text as its prompt, and happens
only on a confirmed text message. -/
theorem handleCalls_fixed (confirm : Bool) (modelOut : Except String String)
    (m : Client.PromptMessage) (c : Client.GenCall)
    (hc : c ∈ (Client.handleServerMessagePrompt confirm modelOut m).1) :
    c.maxTokens = 1024 ∧ m.content = .text c.prompt ∧ confirm = true := by
  rcases m with ⟨content⟩
  cases content with
  | other ty => simp [Client.handleServerMessagePrompt] at hc
  | text s =>
    cases confirm with
    | false => simp [Client.handleServerMessagePrompt] at hc
    | true =>
      simp [Client.handleServerMessagePrompt] at hc
      subst hc
      exact ⟨rfl, rfl, rfl⟩

/-- Every model call the message loop issues carries the constant bound
`1024`. -/
theorem runMessages_maxTokens (confirmAt : Nat → Bool)
    (modelAt : Nat → Except String String) (k : Nat)
    (msgs : List Client.PromptMessage) (c : Client.GenCall)
    (hc : c ∈ (Client.runMessages confirmAt modelAt k msgs).1) :
    c.maxTokens = 1024 := by
  revert hc
  induction msgs generalizing k with
  | nil =>
    intro hc
    simp [Client.runMessages] at hc
  | cons m rest ih =>
    intro hc
    rcases hh : Client.handleServerMessagePrompt (confirmAt k) (modelAt k) m
      with ⟨calls, r⟩
    have hcalls : ∀ x ∈ calls, Client.GenCall.maxTokens x = 1024 := fun x hx =>
      (handleCalls_fixed (confirmAt k) (modelAt k) m x (by rw [hh]; exact hx)).1
    cases r with
    | error e =>
      simp only [Client.runMessages, hh] at hc
      exact hcalls c hc
    | ok t =>
      rcases hr : Client.runMessages confirmAt modelAt (k + 1) rest with ⟨calls2, r2⟩
      cases r2 with
      | error e =>
        simp only [Client.runMessages, hh, hr] at hc
        rcases List.mem_append.mp hc with h | h
        · exact hcalls c h
        · exact ih (k + 1) (by rw [hr]; exact h)
      | ok ts =>
        simp only [Client.runMessages, hh, hr] at hc
        rcases List.mem_append.mp hc with h | h
        · exact hcalls c h
        · exact ih (k + 1) (by rw [hr]; exact h)

/-- Appending to a non-empty string keeps it non-empty. -/
theorem append_ne_empty_left (s t : String) (h : s ≠ "") : s ++ t ≠ "" := by
  intro he
  apply h
  have h2 := congrArg String.length he
  rw [String.length_append] at h2
  simp at h2
  have hd : s.data = [] := List.length_eq_zero.mp h2.1
  cases s
  simp_all

end Mcp

/-! ## Claim theorems -/

/-- C4: for every sampling request of exactly two text messages where the
operator denies both, the Sampling Bridge returns the two fixed
cancellation markers joined by a single newline, and issues no model
call. -/
theorem c4_deny_both (m1 m2 : String) (mt : Nat)
    (confirmAt : Nat → Bool) (modelAt : Nat → Except String String)
    (h0 : confirmAt 0 = false) (h1 : confirmAt 1 = false) :
    Mcp.Client.samplingHandler confirmAt modelAt ⟨[⟨.text m1⟩, ⟨.text m2⟩], mt⟩ =
      ([], Except.ok ⟨"user", "google/gemini-2.0-flash", "endTurn",
        "Prompt execution cancelled.\nPrompt execution cancelled."⟩) := by
  simp +decide [Mcp.Client.samplingHandler, Mcp.Client.runMessages,
    Mcp.Client.handleServerMessagePrompt, h0, h1, Mcp.Client.joinNewline]

/-- Witness for C4 at a concrete two-message request. -/
theorem c4_deny_both_witness :
    Mcp.Client.samplingHandler (fun _ => false) (fun _ => Except.ok "x")
      ⟨[⟨.text "a"⟩, ⟨.text "b"⟩], 7⟩ =
      ([], Except.ok ⟨"user", "google/gemini-2.0-flash", "endTurn",
        "Prompt execution cancelled.\nPrompt execution cancelled."⟩) :=
  c4_deny_both "a" "b" 7 (fun _ => false) (fun _ => Except.ok "x") rfl rfl

/-- C5: for a sampling request whose first message is non-text and whose
second is a text message the operator confirms, the non-text message
contributes the fixed "unsupported content type" marker with no gate and
no model call, and the returned payload is that marker first, then the
model's generated text, in the original order (the only model call issued
is for the second message). -/
theorem c5_unsupported_then_confirmed (ty s t : String) (mt : Nat)
    (confirmAt : Nat → Bool) (modelAt : Nat → Except String String)
    (h1 : confirmAt 1 = true) (hm : modelAt 1 = Except.ok t) :
    Mcp.Client.samplingHandler confirmAt modelAt ⟨[⟨.other ty⟩, ⟨.text s⟩], mt⟩ =
      ([⟨s, 1024⟩], Except.ok ⟨"user", "google/gemini-2.0-flash", "endTurn",
        ("Unsupported content type: " ++ ty) ++ (if t = "" then "" else "\n" ++ t)⟩)
    ∧ ∃ mid, ("Unsupported content type: " ++ ty) ++ (if t = "" then "" else "\n" ++ t) =
        ("Unsupported content type: " ++ ty) ++ mid ++ t := by
  constructor
  · have hne : ("Unsupported content type: " ++ ty) ≠ "" :=
      Mcp.append_ne_empty_left _ _ (by decide)
    by_cases ht : t = ""
    · subst ht
      simp [Mcp.Client.samplingHandler, Mcp.Client.runMessages,
        Mcp.Client.handleServerMessagePrompt, h1, hm, Mcp.Client.joinNewline, hne,
        String.append_empty]
    · simp [Mcp.Client.samplingHandler, Mcp.Client.runMessages,
        Mcp.Client.handleServerMessagePrompt, h1, hm, Mcp.Client.joinNewline, hne, ht,
        String.append_assoc]
  · by_cases ht : t = ""
    · subst ht
      exact ⟨"", by simp [String.append_empty]⟩
    · exact ⟨"\n", by simp [ht, String.append_assoc]⟩

/-- Witness for C5 at a concrete request: an image message followed by a
confirmed text message. -/
theorem c5_unsupported_witness :
    Mcp.Client.samplingHandler (fun _ => true) (fun _ => Except.ok "gen")
      ⟨[⟨.other "image"⟩, ⟨.text "hello"⟩], 3⟩ =
      ([⟨"hello", 1024⟩], Except.ok ⟨"user", "google/gemini-2.0-flash", "endTurn",
        ("Unsupported content type: " ++ "image") ++
          (if "gen" = "" then "" else "\n" ++ "gen")⟩)
    ∧ ∃ mid, ("Unsupported content type: " ++ "image") ++
        (if "gen" = "" then "" else "\n" ++ "gen") =
        ("Unsupported content type: " ++ "image") ++ mid ++ "gen" :=
  c5_unsupported_then_confirmed "image" "hello" "gen" 3
    (fun _ => true) (fun _ => Except.ok "gen") rfl rfl

/-- C10: the message loop keeps exactly the non-empty contributions — a
confirmed text message whose model call returns `""` is filtered out
before the join, adding neither a marker nor a newline; concretely, for a
two-message request whose second model call returns `""` the response text
is just the first contribution, with strictly fewer newline-separated
parts than the request has messages. -/
theorem c10_empty_contribution_filtered :
    (∀ (confirmAt : Nat → Bool) (modelAt : Nat → Except String String)
        (k : Nat) (msgs : List Mcp.Client.PromptMessage),
      (Mcp.Client.runMessages confirmAt modelAt k msgs).2 =
        (Mcp.Client.contribs confirmAt modelAt k msgs).map
          (fun ts => ts.filter (fun t => t ≠ ""))) ∧
    Mcp.Client.samplingHandler (fun _ => true)
        (fun k => if k = 0 then Except.ok "foo" else Except.ok "")
        ⟨[⟨.text "alpha"⟩, ⟨.text "beta"⟩], 9⟩ =
      ([⟨"alpha", 1024⟩, ⟨"beta", 1024⟩],
        Except.ok ⟨"user", "google/gemini-2.0-flash", "endTurn", "foo"⟩) ∧
    (Mcp.newlineParts "foo").length <
      ([⟨.text "alpha"⟩, ⟨.text "beta"⟩] : List Mcp.Client.PromptMessage).length := by
  refine ⟨?_, by rfl, by decide⟩
  intro confirmAt modelAt k msgs
  induction msgs generalizing k with
  | nil => simp [Mcp.Client.runMessages, Mcp.Client.contribs, Except.map]
  | cons m rest ih =>
    rcases hh : Mcp.Client.handleServerMessagePrompt (confirmAt k) (modelAt k) m
      with ⟨calls, r⟩
    cases r with
    | error e =>
      simp [Mcp.Client.runMessages, Mcp.Client.contribs, hh, Except.map]
    | ok t =>
      rcases hr : Mcp.Client.runMessages confirmAt modelAt (k + 1) rest with ⟨calls2, r2⟩
      have ih2 := ih (k + 1)
      rw [hr] at ih2
      cases hc : Mcp.Client.contribs confirmAt modelAt (k + 1) rest with
      | error e =>
        rw [hc] at ih2
        simp only [Except.map] at ih2
        simp [Mcp.Client.runMessages, Mcp.Client.contribs, hh, hr, hc, ih2, Except.map]
      | ok ts =>
        rw [hc] at ih2
        simp only [Except.map] at ih2
        subst ih2
        by_cases ht : t = ""
        · subst ht
          simp [Mcp.Client.runMessages, Mcp.Client.contribs, hh, hr, hc, Except.map,
            List.filter_cons]
        · simp [Mcp.Client.runMessages, Mcp.Client.contribs, hh, hr, hc, ht, Except.map,
            List.filter_cons]

/-- C2, counterexample: a sampling request carrying a max-token bound of 5
with one confirmed text message makes the bridge invoke the model with the
constant bound 1024, not with the bound the request carries — the claim's
"with the maximum-output-token bound carried by that sampling request" is
false on this input. -/
theorem c2_counterexample :
    (Mcp.Client.samplingHandler (fun _ => true) (fun _ => Except.ok "out")
        ⟨[⟨.text "hi"⟩], 5⟩).1 = [⟨"hi", 1024⟩] ∧
    (Mcp.Client.SamplingRequest.maxTokens ⟨[⟨.text "hi"⟩], 5⟩ : Nat) = 5 ∧
    (1024 : Nat) ≠ 5 :=
  ⟨rfl, rfl, by decide⟩

/-- C2, amended: for every sampling request and every text message the
operator confirms, the model is invoked with that message's text as the
sole prompt and with the constant bound 1024 (the request's own max-token
value is ignored), and the returned text becomes that message's
contribution.  Stated three ways: every call the per-message handler
issues is for a confirmed text message with bound 1024 and that message's
text as prompt; a confirmed text message issues exactly one call and
contributes exactly the returned text; and every call the whole bridge
issues, whatever the request carries, has bound 1024. -/
theorem c2_fixed_bound_amended :
    (∀ (confirm : Bool) (modelOut : Except String String)
        (m : Mcp.Client.PromptMessage) (c : Mcp.Client.GenCall),
      c ∈ (Mcp.Client.handleServerMessagePrompt confirm modelOut m).1 →
      c.maxTokens = 1024 ∧ m.content = .text c.prompt ∧ confirm = true) ∧
    (∀ (s t : String),
      Mcp.Client.handleServerMessagePrompt true (Except.ok t) ⟨.text s⟩ =
        ([⟨s, 1024⟩], Except.ok t)) ∧
    (∀ (confirmAt : Nat → Bool) (modelAt : Nat → Except String String)
        (req : Mcp.Client.SamplingRequest) (c : Mcp.Client.GenCall),
      c ∈ (Mcp.Client.samplingHandler confirmAt modelAt req).1 →
      c.maxTokens = 1024) := by
  refine ⟨Mcp.handleCalls_fixed, fun s t => rfl, ?_⟩
  intro confirmAt modelAt req c hc
  rcases hr : Mcp.Client.runMessages confirmAt modelAt 0 req.messages with ⟨calls, r⟩
  have hmem : c ∈ calls := by
    cases r with
    | error e => simpa [Mcp.Client.samplingHandler, hr] using hc
    | ok ts => simpa [Mcp.Client.samplingHandler, hr] using hc
  exact Mcp.runMessages_maxTokens confirmAt modelAt 0 req.messages c (by rw [hr]; exact hmem)

/-- C3, the code at the failing input: in a two-text-message request with
both messages confirmed, a model-invocation failure on the first message
makes the whole bridge handler fail — no failure marker is contributed,
no response is produced, and the second message is never processed (only
the first message's model call is ever issued).  The claim's required
behavior (contribute a failure marker and let the remaining messages
proceed) is the spec's stated intent; the code lacks the per-message
catch. -/
theorem c3_model_failure_aborts :
    Mcp.Client.samplingHandler (fun _ => true)
        (fun k => if k = 0 then Except.error "model call failed" else Except.ok "fine")
        ⟨[⟨.text "a"⟩, ⟨.text "b"⟩], 8⟩ =
      ([⟨"a", 1024⟩], Except.error "model call failed") := rfl

/-- C1, counterexample: when the model's final text is empty and one tool
was invoked whose first result content text is the empty string, the
displayed answer is the fixed "No response generated." message, not the
first tool's result text — so the displayed answer does not equal the
first tool's result text on this input. -/
theorem c1_counterexample :
    Mcp.Client.handleQueryDisplay ⟨"", [⟨⟨[⟨some ""⟩]⟩⟩]⟩ = "No response generated." ∧
    Mcp.Client.firstToolText [⟨⟨[⟨some ""⟩]⟩⟩] = some "" ∧
    "No response generated." ≠ "" :=
  ⟨rfl, rfl, by decide⟩

/-- C1, amended: the displayed answer is the model's final text if
non-empty; else the first tool call's result content text if a tool was
invoked and that text is present and non-empty; else the fixed
"No response generated." message — and it is never the empty string. -/
theorem c1_display_amended (text : String) (trs : List Mcp.Client.AgentToolResult) :
    (text ≠ "" → Mcp.Client.handleQueryDisplay ⟨text, trs⟩ = text) ∧
    (∀ t, text = "" → Mcp.Client.firstToolText trs = some t → t ≠ "" →
      Mcp.Client.handleQueryDisplay ⟨text, trs⟩ = t) ∧
    (text = "" → (Mcp.Client.firstToolText trs).getD "" = "" →
      Mcp.Client.handleQueryDisplay ⟨text, trs⟩ = "No response generated.") ∧
    Mcp.Client.handleQueryDisplay ⟨text, trs⟩ ≠ "" := by
  refine ⟨?_, ?_, ?_, ?_⟩
  · intro h
    simp [Mcp.Client.handleQueryDisplay, Mcp.Client.jsOr, Mcp.Client.jsTruthy, h]
  · intro t h0 hft hne
    subst h0
    simp [Mcp.Client.handleQueryDisplay, Mcp.Client.jsOr, Mcp.Client.jsTruthy, hft, hne]
  · intro h0 h1
    subst h0
    simp [Mcp.Client.handleQueryDisplay, Mcp.Client.jsOr, Mcp.Client.jsTruthy, h1]
  · by_cases ht : text = ""
    · subst ht
      rcases hft : Mcp.Client.firstToolText trs with _ | t
      · simp [Mcp.Client.handleQueryDisplay, Mcp.Client.jsOr, Mcp.Client.jsTruthy, hft]
      · by_cases hte : t = ""
        · subst hte
          simp [Mcp.Client.handleQueryDisplay, Mcp.Client.jsOr, Mcp.Client.jsTruthy, hft]
        · simp [Mcp.Client.handleQueryDisplay, Mcp.Client.jsOr, Mcp.Client.jsTruthy, hft, hte]
    · simp [Mcp.Client.handleQueryDisplay, Mcp.Client.jsOr, Mcp.Client.jsTruthy, ht]

/-- C6: for every valid tool name, argument map and every outcome of the
tool's external collaborators (the geocoding fetch, the store write, the
sampling round trip, the JSON parse), `callTool` returns a result whose
content is a single text content part — internal failures become text
payloads, never protocol errors. -/
theorem c6_callTool_text_result (env : Mcp.Server.ServerEnv) (call : Mcp.Server.ToolCall) :
    ∃ s, (Mcp.Server.callTool env call).content = [⟨"text", s⟩] := by
  rcases env with ⟨store, fetchOut, writeOut, samplingOut, parsedOut⟩
  cases call with
  | getCoordinates city =>
    cases fetchOut with
    | error e => exact ⟨_, rfl⟩
    | ok data =>
      rcases data with ⟨results⟩
      cases results with
      | none => exact ⟨_, rfl⟩
      | some rs =>
        cases rs with
        | nil => exact ⟨_, rfl⟩
        | cons r rest => exact ⟨_, rfl⟩
  | createUser n e =>
    cases writeOut with
    | error er => exact ⟨_, rfl⟩
    | ok u => exact ⟨_, rfl⟩
  | createRandomUser =>
    cases samplingOut with
    | error er => exact ⟨_, rfl⟩
    | ok c =>
      rcases c with ⟨cty, ctext⟩
      by_cases hty : cty = "text"
      · subst hty
        cases parsedOut with
        | error er =>
          simp [Mcp.Server.callTool, Mcp.Server.createRandomUser,
            Mcp.Server.registryBoundary]
        | ok p =>
          rcases p with ⟨n, em⟩
          cases writeOut with
          | error er =>
            simp [Mcp.Server.callTool, Mcp.Server.createRandomUser,
              Mcp.Server.createUser, Mcp.Server.registryBoundary]
          | ok u =>
            simp [Mcp.Server.callTool, Mcp.Server.createRandomUser,
              Mcp.Server.createUser, Mcp.Server.registryBoundary]
      · refine ⟨"Error: Failed to generate fake user data.", ?_⟩
        simp [Mcp.Server.callTool, Mcp.Server.createRandomUser,
          Mcp.Server.registryBoundary, hty]

/-- C7: substituting an id that matches no stored user into
`users://{id}/profile` yields a successful content payload whose JSON body
is exactly the serialized `\x7b "error": "User not found" \x7d` object —
the handler is total, so the miss is never a protocol-level failure. -/
theorem c7_user_not_found (users : List Mcp.Server.User) (idStr : String)
    (h : ∀ u ∈ users, Mcp.Server.jsParseInt idStr ≠ some u.id) :
    Mcp.Server.userDetails users idStr =
      ⟨[⟨"users://" ++ idStr ++ "/profile",
        Mcp.Server.stringify (.obj [("error", .str "User not found")]) 0,
        "application/json"⟩]⟩ ∧
    Mcp.Server.stringify (.obj [("error", .str "User not found")]) 0 =
      "\x7b\n  \"error\": \"User not found\"\n\x7d" := by
  refine ⟨?_, rfl⟩
  have hf : users.find? (fun u => Mcp.Server.jsParseInt idStr = some u.id) = none := by
    rw [List.find?_eq_none]
    intro u hu
    simpa using h u hu
  simp [Mcp.Server.userDetails, hf]

/-- Witness for C7: a one-user store and the id string "2", which matches
no user. -/
theorem c7_user_not_found_witness :
    Mcp.Server.userDetails [⟨1, "Alice", "alice@example.com"⟩] "2" =
      ⟨[⟨"users://" ++ "2" ++ "/profile",
        Mcp.Server.stringify (.obj [("error", .str "User not found")]) 0,
        "application/json"⟩]⟩ ∧
    Mcp.Server.stringify (.obj [("error", .str "User not found")]) 0 =
      "\x7b\n  \"error\": \"User not found\"\n\x7d" :=
  c7_user_not_found [⟨1, "Alice", "alice@example.com"⟩] "2" (by decide)

/-- C8: creating a user against a store of N existing users (with the
store write succeeding) assigns id N+1 and appends exactly
`\x7b id, name, email \x7d`; the `users://all` listing of the new store is a
JSON array whose elements include the encoding of exactly that record. -/
theorem c8_create_user_listed (store : List Mcp.Server.User) (name email : String) :
    Mcp.Server.createUser store name email (Except.ok ()) =
      Except.ok (store ++ [⟨(store.length : Int) + 1, name, email⟩],
        (store.length : Int) + 1) ∧
    (Mcp.Server.usersAll (store ++ [⟨(store.length : Int) + 1, name, email⟩])).contents =
      [⟨"users://all",
        Mcp.Server.stringify
          (Mcp.Server.usersAllJson (store ++ [⟨(store.length : Int) + 1, name, email⟩])) 0,
        "application/json"⟩] ∧
    ∃ es,
      Mcp.Server.usersAllJson (store ++ [⟨(store.length : Int) + 1, name, email⟩]) =
        Mcp.Server.Json.arr es ∧
      Mcp.Server.encodeUser ⟨(store.length : Int) + 1, name, email⟩ ∈ es := by
  refine ⟨rfl, rfl, ?_⟩
  refine ⟨(store ++ [(⟨(store.length : Int) + 1, name, email⟩ : Mcp.Server.User)]).map
      Mcp.Server.encodeUser,
    by simp [Mcp.Server.usersAllJson], ?_⟩
  exact List.mem_map_of_mem _ (List.mem_append_right _ (List.mem_singleton_self _))

/-- The trace of `main` in normal form: a fixed ten-event prefix followed
by the interactive actions. -/
theorem mainTrace_eq (acts : List String) :
    Mcp.Client.mainTrace acts =
      [.connect, .issueDiscovery "tools", .issueDiscovery "resources",
       .issueDiscovery "resourceTemplates", .issueDiscovery "prompts",
       .joinDiscovery "tools", .joinDiscovery "resources",
       .joinDiscovery "resourceTemplates", .joinDiscovery "prompts",
       .registerSampling] ++ acts.map .interact := by
  simp [Mcp.Client.mainTrace, Mcp.Client.discoveryKinds]

/-- Past the fixed prefix, the trace holds only interactive events. -/
theorem mainTrace_tail (acts : List String) (i : Nat) (h10 : 10 ≤ i) :
    (Mcp.Client.mainTrace acts)[i]? = (acts[i - 10]?).map Mcp.Client.Event.interact := by
  rw [mainTrace_eq, List.getElem?_append_right (by simpa using h10)]
  simp

/-- A discovery-issue event sits at positions 1 through 4. -/
theorem mainTrace_issue_range (acts : List String) (i : Nat) (k : String)
    (h : (Mcp.Client.mainTrace acts)[i]? = some (.issueDiscovery k)) :
    1 ≤ i ∧ i ≤ 4 := by
  by_cases hi : 10 ≤ i
  · rw [mainTrace_tail acts i hi] at h
    cases hx : acts[i - 10]? with
    | none => rw [hx] at h; simp at h
    | some a => rw [hx] at h; simp at h
  · push_neg at hi
    rw [mainTrace_eq] at h
    interval_cases i <;> simp_all

/-- A discovery-join event sits at positions 5 through 8. -/
theorem mainTrace_join_range (acts : List String) (i : Nat) (k : String)
    (h : (Mcp.Client.mainTrace acts)[i]? = some (.joinDiscovery k)) :
    5 ≤ i ∧ i ≤ 8 := by
  by_cases hi : 10 ≤ i
  · rw [mainTrace_tail acts i hi] at h
    cases hx : acts[i - 10]? with
    | none => rw [hx] at h; simp at h
    | some a => rw [hx] at h; simp at h
  · push_neg at hi
    rw [mainTrace_eq] at h
    interval_cases i <;> simp_all

/-- The sampling-handler registration sits at position 9. -/
theorem mainTrace_register_pos (acts : List String) (i : Nat)
    (h : (Mcp.Client.mainTrace acts)[i]? = some .registerSampling) : i = 9 := by
  by_cases hi : 10 ≤ i
  · rw [mainTrace_tail acts i hi] at h
    cases hx : acts[i - 10]? with
    | none => rw [hx] at h; simp at h
    | some a => rw [hx] at h; simp at h
  · push_neg at hi
    rw [mainTrace_eq] at h
    interval_cases i <;> simp_all

/-- An interactive event sits past the fixed prefix. -/
theorem mainTrace_interact_pos (acts : List String) (i : Nat) (a : String)
    (h : (Mcp.Client.mainTrace acts)[i]? = some (.interact a)) : 10 ≤ i := by
  by_contra hi
  push_neg at hi
  rw [mainTrace_eq] at h
  interval_cases i <;> simp_all

/-- C9: in the trace of `main`, all four discovery calls are issued before
any of them is joined (they run concurrently under the single `await` of
their join), every discovery join precedes every interactive action, and
the sampling-handler registration precedes every interactive action — so
no interactive action ever observes a partially-populated capability
snapshot or an unregistered sampling handler. -/
theorem c9_discovery_ordering (acts : List String) (i j : Nat) :
    (∀ ki kj, (Mcp.Client.mainTrace acts)[i]? = some (.issueDiscovery ki) →
      (Mcp.Client.mainTrace acts)[j]? = some (.joinDiscovery kj) → i < j) ∧
    (∀ kj a, (Mcp.Client.mainTrace acts)[i]? = some (.joinDiscovery kj) →
      (Mcp.Client.mainTrace acts)[j]? = some (.interact a) → i < j) ∧
    (∀ a, (Mcp.Client.mainTrace acts)[i]? = some .registerSampling →
      (Mcp.Client.mainTrace acts)[j]? = some (.interact a) → i < j) := by
  refine ⟨?_, ?_, ?_⟩
  · intro ki kj hik hjk
    have h1 := mainTrace_issue_range acts i ki hik
    have h2 := mainTrace_join_range acts j kj hjk
    omega
  · intro kj a hjk hja
    have h1 := mainTrace_join_range acts i kj hjk
    have h2 := mainTrace_interact_pos acts j a hja
    omega
  · intro a hreg hja
    have h1 := mainTrace_register_pos acts i hreg
    have h2 := mainTrace_interact_pos acts j a hja
    omega

